import Mathlib

set_option maxHeartbeats 1000000
set_option maxRecDepth 4000

/-!
Shallow embedding of the service-history Lambda handler
(`src/lambda_function/lambda_handler.py`) and proofs about its
normalization, validation, dispatch and storage-gateway behaviour.

Python values that can appear in an event, a request body, or a parsed
JSON document are embedded as `PyVal`.  External libraries and AWS
collaborators (the `json` module's `loads`/`dumps`, `dateutil.parser.parse`,
`datetime.now`, `time.time`, and the AppConfig / CloudWatch Logs clients)
are modelled as an oracle environment `Env`; every call the module makes to
a collaborator is recorded in an explicit effect trace.
-/

/-- Embedding of the Python/JSON values the handler manipulates: `None`,
booleans, integers, strings, lists, and string-keyed dictionaries. -/
inductive PyVal where
  | none
  | bool (b : Bool)
  | int (n : Int)
  | str (s : String)
  | list (xs : List PyVal)
  | dict (xs : List (String × PyVal))

/-- Python truthiness (`bool(v)`) for embedded values: `None`, `False`, `0`,
empty strings and empty containers are falsy. -/
def pyTruthy : PyVal → Bool
  | .none => false
  | .bool b => b
  | .int n => n != 0
  | .str s => !(s = "")
  | .list xs => !xs.isEmpty
  | .dict xs => !xs.isEmpty

/-- Python `type(v).__name__` for embedded values, used in error messages. -/
def pyTypeName : PyVal → String
  | .none => "NoneType"
  | .bool _ => "bool"
  | .int _ => "int"
  | .str _ => "str"
  | .list _ => "list"
  | .dict _ => "dict"

/-- Python `str(v)` as used by f-string interpolation.  The rendering of
container values is abstracted; no claim depends on its exact text. -/
def pyStrOf : PyVal → String
  | .none => "None"
  | .bool b => if b then "True" else "False"
  | .int n => toString n
  | .str s => s
  | .list _ => "[...]"
  | .dict _ => "\x7b...\x7d"

/-- Dictionary lookup (`d[k]` / `k in d` support): first binding of `k`. -/
def dictGet (xs : List (String × PyVal)) (k : String) : Option PyVal :=
  match xs.find? (fun p => p.1 == k) with
  | Option.some p => Option.some p.2
  | Option.none => Option.none

/-- Python `d[k] = v` on a dict: overwrite in place if present, else append. -/
def dictSet (xs : List (String × PyVal)) (k : String) (v : PyVal) :
    List (String × PyVal) :=
  if (xs.find? (fun p => p.1 == k)).isSome then
    xs.map (fun p => if p.1 == k then (k, v) else p)
  else xs ++ [(k, v)]

/-- Python dict merge `\x7b**a, **b\x7d`: entries of `b` inserted into `a`
in order, later keys overriding earlier ones. -/
def mergeDicts (a b : List (String × PyVal)) : List (String × PyVal) :=
  b.foldl (fun acc kv => dictSet acc kv.1 kv.2) a

/-- Python `v == s` for a string literal `s`: true only when `v` is that
string (no Python value of another type compares equal to a `str`). -/
def pyEqStr (v : PyVal) (s : String) : Bool :=
  match v with
  | .str t => t == s
  | _ => false

/-- Whether `needle` is an initial segment of `hay` (character lists). -/
def listStarts : List Char → List Char → Bool
  | [], _ => true
  | _ :: _, [] => false
  | a :: as, b :: bs => a == b && listStarts as bs

/-- Whether `needle` occurs as a contiguous run inside `hay`, modelling
Python's substring test `needle in hay` on strings. -/
def listHasSub (needle : List Char) : List Char → Bool
  | [] => needle.isEmpty
  | c :: rest => listStarts needle (c :: rest) || listHasSub needle rest

/-- The module's single error type: a message plus an HTTP-style status
code (every raise site in the module uses the default `400`). -/
structure ValidationError where
  message : String
  status_code : Int
deriving DecidableEq

/-- A Python exception as seen at the dispatcher boundary: either the
module's `ValidationError` or any other exception (carrying only a
diagnostic string, which the dispatcher never places in a response). -/
inductive PyErr where
  | vErr (e : ValidationError)
  | exn (msg : String)
deriving DecidableEq

/-- The response envelope built by every return path of the handler. -/
structure Response where
  statusCode : Int
  body : String
  headers : List (String × String)
deriving DecidableEq

/-- The constant headers mapping attached to every response. -/
def ctJson : List (String × String) := [("Content-Type", "application/json")]

/-- The match of the regex search `/([^/]+)$` on `s`: the non-empty run of
non-slash characters that follows the last `/` and extends to the end of
the string, when such a run exists. -/
def trailingSegment (s : String) : Option String :=
  let r := s.data.reverse
  let seg := r.takeWhile (fun c => c != '/')
  if seg.isEmpty then Option.none
  else if (r.drop seg.length).isEmpty then Option.none
  else Option.some (String.mk seg.reverse)

/-- Embedding of `extract_id_from_path`: type check, emptiness check,
regex search for the trailing path segment, and emptiness check on the
extracted id. -/
def extract_id_from_path : PyVal → Except ValidationError String
  | .str p =>
    if p = "" then .error ⟨"Empty path provided", 400⟩
    else
      match trailingSegment p with
      | Option.none => .error ⟨"ID not found in request path", 400⟩
      | Option.some idv =>
        if idv = "" then .error ⟨"Extracted ID is empty", 400⟩
        else .ok idv
  | v => .error ⟨"Invalid path format: expected string, got " ++ pyTypeName v, 400⟩

/-- Embedding of `validate_create_input`: rejects `None`, rejects any
non-dict value, rejects the empty dict; accepts every non-empty dict. -/
def validate_create_input : PyVal → Except ValidationError Unit
  | .none => .error ⟨"Request body cannot be None", 400⟩
  | .dict xs =>
    if xs.isEmpty then .error ⟨"Request body cannot be empty", 400⟩
    else .ok ()
  | v => .error ⟨"Request body must be a JSON object, got " ++ pyTypeName v, 400⟩

/-! Helper lemmas about the trailing-segment regex. -/

theorem takeWhile_append_slash (xs ys : List Char) (h : ∀ c ∈ xs, c ≠ '/') :
    (xs ++ '/' :: ys).takeWhile (fun c => c != '/') = xs := by
  induction xs with
  | nil => simp [List.takeWhile_cons]
  | cons a as ih =>
    have ha : a ≠ '/' := h a (by simp)
    simp only [List.cons_append, List.takeWhile_cons]
    have : (a != '/') = true := by simpa using ha
    rw [this]
    simp only [if_true]
    rw [ih (fun c hc => h c (by simp [hc]))]

theorem trailingSegment_of_split (pre seg : String) (hne : seg ≠ "")
    (hns : ∀ c ∈ seg.data, c ≠ '/') :
    trailingSegment (pre ++ "/" ++ seg) = Option.some seg := by
  have hdata : (pre ++ "/" ++ seg).data = pre.data ++ '/' :: seg.data := by
    simp [String.data_append]
  have hrev : (pre ++ "/" ++ seg).data.reverse
      = seg.data.reverse ++ '/' :: pre.data.reverse := by
    rw [hdata]
    simp
  have hsegne : seg.data ≠ [] := by
    intro hc
    apply hne
    cases seg with
    | mk l => simp only at hc; simp [hc]
  have hall : ∀ c ∈ seg.data.reverse, c ≠ '/' := by
    intro c hc
    exact hns c (List.mem_reverse.mp hc)
  have h1 : seg.data.reverse.isEmpty = false := by
    cases hgd : seg.data.reverse with
    | nil => exact absurd (by simpa using List.reverse_eq_nil_iff.mp hgd) hsegne
    | cons a l => simp
  unfold trailingSegment
  simp only [hrev, takeWhile_append_slash (seg.data.reverse) (pre.data.reverse) hall,
    h1, Bool.false_eq_true, if_false, List.drop_left]
  simp only [List.isEmpty_cons, Bool.false_eq_true, if_false, List.reverse_reverse]

theorem trailingSegment_endSlash (p : String) (q : List Char)
    (hq : p.data = q ++ ['/']) :
    trailingSegment p = Option.none := by
  unfold trailingSegment
  simp only [hq]
  simp [List.takeWhile_cons]

/-- C2: for every gateway path of the form `pre ++ "/" ++ seg` with a
non-empty, slash-free trailing segment `seg`, `extract_id_from_path`
returns exactly `seg`; for every path that is empty, equal to `"/"`, or
ending in `/`, it raises a `ValidationError`. -/
theorem C2_extract_id_from_path_spec :
    (∀ pre seg : String, seg ≠ "" → (∀ c ∈ seg.data, c ≠ '/') →
      extract_id_from_path (.str (pre ++ "/" ++ seg)) = .ok seg) ∧
    (∀ p : String, (p = "" ∨ p = "/" ∨ (∃ q, p.data = q ++ ['/'])) →
      ∃ e, extract_id_from_path (.str p) = .error e) := by
  constructor
  · intro pre seg hne hns
    have hpne : pre ++ "/" ++ seg ≠ "" := by
      intro hc
      have : (pre ++ "/" ++ seg).data = [] := by rw [hc]
      rw [String.data_append, String.data_append] at this
      simp at this
    simp only [extract_id_from_path]
    rw [if_neg hpne, trailingSegment_of_split pre seg hne hns]
    simp only [if_neg hne]
  · intro p hp
    rcases hp with h | h | ⟨q, hq⟩
    · exact ⟨_, by rw [h]; rfl⟩
    · exact ⟨_, by rw [h]; rfl⟩
    · have hpne : p ≠ "" := by
        intro hc
        rw [hc] at hq
        exact absurd hq.symm (by simp)
      refine ⟨⟨"ID not found in request path", 400⟩, ?_⟩
      simp only [extract_id_from_path]
      rw [if_neg hpne, trailingSegment_endSlash p q hq]

/-- Witness for C2 at concrete paths. -/
theorem C2_extract_id_from_path_spec_witness :
    extract_id_from_path (.str "/service/abc") = .ok "abc" ∧
    ∃ e, extract_id_from_path (.str "/service/") = .error e :=
  ⟨C2_extract_id_from_path_spec.1 "/service" "abc" (by decide) (by decide),
   C2_extract_id_from_path_spec.2 "/service/"
      (Or.inr (Or.inr ⟨"/service".data, by decide⟩))⟩

/-- C4: `validate_create_input` rejects `None`, rejects every value that is
not a dict, rejects the empty dict, and accepts every non-empty dict. -/
theorem C4_validate_create_input_spec :
    (validate_create_input .none = .error ⟨"Request body cannot be None", 400⟩) ∧
    (∀ v : PyVal, v ≠ .none → (∀ xs, v ≠ .dict xs) →
      ∃ e, validate_create_input v = .error e) ∧
    (validate_create_input (.dict []) =
      .error ⟨"Request body cannot be empty", 400⟩) ∧
    (∀ xs, xs ≠ [] → validate_create_input (.dict xs) = .ok ()) := by
  refine ⟨rfl, ?_, rfl, ?_⟩
  · intro v hn hd
    cases v with
    | none => exact absurd rfl hn
    | dict xs => exact absurd rfl (hd xs)
    | bool b => exact ⟨_, rfl⟩
    | int n => exact ⟨_, rfl⟩
    | str s => exact ⟨_, rfl⟩
    | list xs => exact ⟨_, rfl⟩
  · intro xs hxs
    cases xs with
    | nil => exact absurd rfl hxs
    | cons a l => rfl

/-- Witness for C4 at concrete bodies. -/
theorem C4_validate_create_input_spec_witness :
    (∃ e, validate_create_input (.int 3) = .error e) ∧
    validate_create_input (.dict [("k", .int 1)]) = .ok () :=
  ⟨C4_validate_create_input_spec.2.1 (.int 3) (by intro h; cases h)
      (by intro xs h; cases h),
   C4_validate_create_input_spec.2.2.2 [("k", .int 1)] (List.cons_ne_nil _ _)⟩

/-- Python membership test `key in v` as used on event sub-values: key
lookup for dicts, substring test for strings, element equality for lists;
a `TypeError` for non-container values. -/
def pyContains (v : PyVal) (key : String) : Except PyErr Bool :=
  match v with
  | .dict xs => .ok (dictGet xs key).isSome
  | .str s => .ok (listHasSub key.data s.data)
  | .list xs => .ok (xs.any (fun x => pyEqStr x key))
  | _ => .error (.exn "TypeError: argument is not iterable")

/-- Python subscription `v[key]` with a string key: dict lookup (a missing
key is a `KeyError`); every other value raises a `TypeError`. -/
def pySubscript (v : PyVal) (key : String) : Except PyErr PyVal :=
  match v with
  | .dict xs =>
    match dictGet xs key with
    | Option.some w => .ok w
    | Option.none => .error (.exn "KeyError")
  | _ => .error (.exn "TypeError: value is not subscriptable")

/-- Outcome of a CloudWatch Logs create call: success, the
`ResourceAlreadyExistsException` the module swallows, or another failure. -/
inductive AwsOutcome where
  | ok
  | alreadyExists
  | err (msg : String)
deriving DecidableEq

/-- Outcome of a `put_log_events` call. -/
inductive PutOutcome where
  | ok
  | err (msg : String)
deriving DecidableEq

/-- Outcome of the AppConfig `get_configuration` call: a configuration
blob, a response missing the `Content` key (`KeyError`), or a transport
failure. -/
inductive ConfigOutcome where
  | ok (content : String)
  | keyErr (msg : String)
  | err (msg : String)

/-- One call made to an external collaborator (AppConfig or CloudWatch
Logs), recorded in the order the module issues them. -/
inductive CallEffect where
  | getConfiguration
  | createLogGroup (name : String)
  | createLogStream (group stream : String)
  | putLogEvents (group stream : String) (timestamp : Int) (message : String)
  | startQuery (group : String) (startMs endMs : Int) (queryString : String)
  | getQueryResults (queryId : String)
deriving DecidableEq

/-- Oracle environment for everything outside the module: the `json`
module (`loads`/`dumps`), `dateutil.parser.parse` (`Option.none` models a
`ValueError`), `datetime.isoformat`, the two `datetime.now()` reads taken
when defaulting the read window (`nowStart`, then `nowEnd`), the
`time.time()*1000` read taken on a write (`nowMs`), and the outcomes of
every AWS collaborator call.  Datetimes are embedded as integer epoch
seconds, write timestamps as integer epoch milliseconds. -/
structure Env where
  loads : String → Option PyVal
  dumps : PyVal → String
  parse : String → Option Int
  isoformat : Int → String
  nowStart : Int
  nowEnd : Int
  nowMs : Int
  configOutcome : ConfigOutcome
  createLogGroupOutcome : String → AwsOutcome
  createLogStreamOutcome : String → String → AwsOutcome
  putLogEventsOutcome : String → String → Int → String → PutOutcome
  startQueryOutcome : Except String String
  queryRunningPolls : Nat
  queryResultsOutcome : Except String (List (List (String × String)))

/-- One optional time field of `validate_read_input`: presence test,
subscription, and `dateutil` parse, raising `errMsg` on a `ValueError`
(the only exception the source catches there). -/
def readTimeParam (env : Env) (query_params : PyVal) (key errMsg : String) :
    Except PyErr (Option Int) :=
  match pyContains query_params key with
  | .error e => .error e
  | .ok false => .ok Option.none
  | .ok true =>
    match pySubscript query_params key with
    | .error e => .error e
    | .ok (.str s) =>
      match env.parse s with
      | Option.some t => .ok (Option.some t)
      | Option.none => .error (.vErr ⟨errMsg, 400⟩)
    | .ok _ => .error (.exn "TypeError: parser requires a string")

/-- Embedding of `validate_read_input`: identifier emptiness check,
optional `start`/`end` parsing, defaulting to the window
`[now - 1h, now]`, and the strict `start < end` range check. -/
def validate_read_input (env : Env) (query_params : PyVal) (id_value : String) :
    Except PyErr (Int × Int) :=
  if id_value = "" then .error (.vErr ⟨"ID is required", 400⟩)
  else
    match readTimeParam env query_params "start"
        "Invalid start time format. Expected ISO 8601 format." with
    | .error e => .error e
    | .ok startOpt =>
      match readTimeParam env query_params "end"
          "Invalid end time format. Expected ISO 8601 format." with
      | .error e => .error e
      | .ok endOpt =>
        let start_time := startOpt.getD (env.nowStart - 3600)
        let end_time := endOpt.getD env.nowEnd
        if end_time ≤ start_time then
          .error (.vErr ⟨"Start time must be before end time", 400⟩)
        else .ok (start_time, end_time)

/-- A query-parameter mapping whose values are all strings, as delivered
by API Gateway. -/
def strDict (m : List (String × String)) : PyVal :=
  .dict (m.map (fun p => (p.1, .str p.2)))

/-- First binding of `k` in a string-valued mapping. -/
def lookupStr (m : List (String × String)) (k : String) : Option String :=
  match m.find? (fun p => p.1 == k) with
  | Option.some p => Option.some p.2
  | Option.none => Option.none

theorem dictGet_strDict (m : List (String × String)) (k : String) :
    dictGet (m.map (fun p => (p.1, PyVal.str p.2))) k
      = (lookupStr m k).map PyVal.str := by
  unfold dictGet lookupStr
  induction m with
  | nil => rfl
  | cons a l ih =>
    simp only [List.map_cons, List.find?]
    cases h : (a.1 == k) with
    | true => rfl
    | false => simpa using ih

theorem readTimeParam_strDict (env : Env) (m : List (String × String))
    (k errMsg : String) :
    readTimeParam env (strDict m) k errMsg
      = match lookupStr m k with
        | Option.none => .ok Option.none
        | Option.some s =>
          match env.parse s with
          | Option.some t => .ok (Option.some t)
          | Option.none => .error (.vErr ⟨errMsg, 400⟩) := by
  unfold readTimeParam strDict pyContains pySubscript
  simp only [dictGet_strDict]
  cases h : lookupStr m k with
  | none => simp [h]
  | some s => simp [h]

/-- The start bound the read path works with: the parsed `start` field if
supplied, else the first `datetime.now()` read minus one hour. -/
def resolvedStart (env : Env) (m : List (String × String)) : Option Int :=
  match lookupStr m "start" with
  | Option.some s => env.parse s
  | Option.none => Option.some (env.nowStart - 3600)

/-- The end bound the read path works with: the parsed `end` field if
supplied, else the second `datetime.now()` read. -/
def resolvedEnd (env : Env) (m : List (String × String)) : Option Int :=
  match lookupStr m "end" with
  | Option.some s => env.parse s
  | Option.none => Option.some env.nowEnd

/-- C5: for every non-empty identifier and string-valued query mapping,
`validate_read_input` raises a `ValidationError` naming the malformed
field whenever a supplied `start` or `end` value is rejected by the
timestamp parser, and raises a `ValidationError` whenever the parsed or
defaulted start bound is greater than or equal to the end bound. -/
theorem C5_validate_read_input_failures (env : Env)
    (m : List (String × String)) (id_value : String) (hid : id_value ≠ "") :
    (∀ s, lookupStr m "start" = Option.some s → env.parse s = Option.none →
      validate_read_input env (strDict m) id_value
        = .error (.vErr ⟨"Invalid start time format. Expected ISO 8601 format.", 400⟩)) ∧
    (∀ s, lookupStr m "end" = Option.some s → env.parse s = Option.none →
      (∀ u, lookupStr m "start" = Option.some u → (env.parse u).isSome) →
      validate_read_input env (strDict m) id_value
        = .error (.vErr ⟨"Invalid end time format. Expected ISO 8601 format.", 400⟩)) ∧
    (∀ st en, resolvedStart env m = Option.some st →
      resolvedEnd env m = Option.some en → en ≤ st →
      validate_read_input env (strDict m) id_value
        = .error (.vErr ⟨"Start time must be before end time", 400⟩)) := by
  refine ⟨?_, ?_, ?_⟩
  · intro s hs hps
    unfold validate_read_input
    rw [if_neg hid, readTimeParam_strDict]
    simp only [hs, hps]
  · intro s hs hps hstart
    unfold validate_read_input
    rw [if_neg hid, readTimeParam_strDict, readTimeParam_strDict]
    cases hu : lookupStr m "start" with
    | none => simp only [hu, hs, hps]
    | some u =>
      have hiu := hstart u hu
      cases hpu : env.parse u with
      | none => rw [hpu] at hiu; simp at hiu
      | some t => simp only [hu, hpu, hs, hps]
  · intro st en hst hen hle
    unfold validate_read_input
    rw [if_neg hid, readTimeParam_strDict, readTimeParam_strDict]
    unfold resolvedStart at hst
    unfold resolvedEnd at hen
    cases hu : lookupStr m "start" with
    | none =>
      simp only [hu, Option.some.injEq] at hst
      cases hv : lookupStr m "end" with
      | none =>
        simp only [hv, Option.some.injEq] at hen
        simp only [hu, hv, Option.getD_none, Option.getD_some]
        rw [if_pos (by omega)]
      | some v =>
        simp only [hv] at hen
        simp only [hu, hv, hen, Option.getD_none, Option.getD_some]
        rw [if_pos (by omega)]
    | some u =>
      simp only [hu] at hst
      cases hv : lookupStr m "end" with
      | none =>
        simp only [hv, Option.some.injEq] at hen
        simp only [hu, hv, hst, Option.getD_none, Option.getD_some]
        rw [if_pos (by omega)]
      | some v =>
        simp only [hv] at hen
        simp only [hu, hv, hst, hen, Option.getD_none, Option.getD_some]
        rw [if_pos (by omega)]

/-- C6: with a non-empty identifier and a query mapping supplying neither
`start` nor `end`, `validate_read_input` returns the default window whose
end is within 5 seconds of the invocation time `t` and whose start is
within one hour plus 5 seconds of `t`, assuming both `datetime.now()`
reads happen within 5 seconds after invocation. -/
theorem C6_validate_read_input_default_window (env : Env)
    (m : List (String × String)) (id_value : String) (t : Int)
    (hid : id_value ≠ "")
    (hs : lookupStr m "start" = Option.none)
    (he : lookupStr m "end" = Option.none)
    (h1 : t ≤ env.nowStart) (h2 : env.nowStart ≤ env.nowEnd)
    (h3 : env.nowEnd ≤ t + 5) :
    validate_read_input env (strDict m) id_value
      = .ok (env.nowStart - 3600, env.nowEnd) ∧
    (t - 5 ≤ env.nowEnd ∧ env.nowEnd ≤ t + 5) ∧
    ((t - 3600) - 5 ≤ env.nowStart - 3600 ∧
      env.nowStart - 3600 ≤ (t - 3600) + 5) := by
  refine ⟨?_, by omega, by omega⟩
  unfold validate_read_input
  rw [if_neg hid, readTimeParam_strDict, readTimeParam_strDict]
  simp only [hs, he, Option.getD_none]
  rw [if_neg (by omega)]

/-- Base witness environment: every collaborator call succeeds and the
external library oracles are trivial. -/
def envW : Env where
  loads := fun _ => Option.none
  dumps := fun _ => ""
  parse := fun _ => Option.none
  isoformat := fun t => toString t
  nowStart := 100000
  nowEnd := 100001
  nowMs := 1234
  configOutcome := .ok "cfg"
  createLogGroupOutcome := fun _ => .ok
  createLogStreamOutcome := fun _ _ => .ok
  putLogEventsOutcome := fun _ _ _ _ => .ok
  startQueryOutcome := .ok "qid"
  queryRunningPolls := 0
  queryResultsOutcome := .ok []

/-- Witness environment whose timestamp parser accepts exactly the
string `"2020"`. -/
def envP : Env :=
  { envW with parse := fun s => if s = "2020" then Option.some 50 else Option.none }

/-- Witness for C5 at concrete inputs: a malformed `start`, a malformed
`end` behind a well-formed `start`, and an equal parsed pair. -/
theorem C5_validate_read_input_failures_witness :
    validate_read_input envP (strDict [("start", "bad")]) "abc"
      = .error (.vErr ⟨"Invalid start time format. Expected ISO 8601 format.", 400⟩) ∧
    validate_read_input envP (strDict [("start", "2020"), ("end", "oops")]) "abc"
      = .error (.vErr ⟨"Invalid end time format. Expected ISO 8601 format.", 400⟩) ∧
    validate_read_input envP (strDict [("start", "2020"), ("end", "2020")]) "abc"
      = .error (.vErr ⟨"Start time must be before end time", 400⟩) :=
  ⟨(C5_validate_read_input_failures envP [("start", "bad")] "abc"
      (by decide)).1 "bad" rfl (by decide),
   (C5_validate_read_input_failures envP [("start", "2020"), ("end", "oops")] "abc"
      (by decide)).2.1 "oops" rfl (by decide)
      (by
        intro u hu
        have h2 : Option.some "2020" = Option.some u := hu
        injection h2 with h3
        rw [← h3]
        decide),
   (C5_validate_read_input_failures envP [("start", "2020"), ("end", "2020")] "abc"
      (by decide)).2.2 50 50 (by decide) (by decide) le_rfl⟩

/-- Witness for C6 at a concrete environment and invocation time. -/
theorem C6_validate_read_input_default_window_witness :
    validate_read_input envW (strDict []) "abc" = .ok (100000 - 3600, 100001) ∧
    ((99998 : Int) - 5 ≤ 100001 ∧ (100001 : Int) ≤ 99998 + 5) ∧
    (((99998 : Int) - 3600) - 5 ≤ 100000 - 3600 ∧
      (100000 : Int) - 3600 ≤ ((99998 : Int) - 3600) + 5) :=
  C6_validate_read_input_default_window envW [] "abc" 99998 (by decide)
    rfl rfl (by decide) (by decide) (by decide)

/-- Whether an AWS create-call outcome is a failure other than the
swallowed `ResourceAlreadyExistsException`. -/
def AwsOutcome.isErr : AwsOutcome → Bool
  | .err _ => true
  | _ => false

/-- Embedding of `get_log_group_name`: one AppConfig call, JSON-parse of
the blob, truthiness and type checks on the `logGroup` key; every failure
is wrapped into a `ValidationError`. -/
def get_log_group_name (env : Env) : Except ValidationError String × List CallEffect :=
  (match env.configOutcome with
   | .err m => .error ⟨"Could not retrieve log group configuration: " ++ m, 400⟩
   | .keyErr m => .error ⟨"Invalid configuration format: " ++ m, 400⟩
   | .ok content =>
     match env.loads content with
     | Option.none => .error ⟨"Invalid configuration format: invalid JSON", 400⟩
     | Option.some (.dict xs) =>
       match dictGet xs "logGroup" with
       | Option.some lg =>
         if pyTruthy lg then
           match lg with
           | .str s => .ok s
           | _ => .error ⟨"Invalid log group name type: expected string, got "
               ++ pyTypeName lg, 400⟩
         else .error ⟨"Configuration missing \x27logGroup\x27 key", 400⟩
       | Option.none => .error ⟨"Configuration missing \x27logGroup\x27 key", 400⟩
     | Option.some _ =>
       .error ⟨"Could not retrieve log group configuration: AttributeError", 400⟩,
   [CallEffect.getConfiguration])

/-- Embedding of `_validate_cloudwatch_inputs`. -/
def _validate_cloudwatch_inputs (log_group_name id_value : String)
    (data : PyVal) : Except ValidationError Unit :=
  if log_group_name = "" then .error ⟨"Log group name cannot be empty", 400⟩
  else if id_value = "" then .error ⟨"ID value cannot be empty", 400⟩
  else
    match data with
    | .none => .error ⟨"Data cannot be None", 400⟩
    | _ => .ok ()

/-- Embedding of `_ensure_log_group_exists`: one `create_log_group` call;
`ResourceAlreadyExistsException` is swallowed. -/
def _ensure_log_group_exists (env : Env) (log_group_name : String) :
    Except ValidationError Unit × List CallEffect :=
  (match env.createLogGroupOutcome log_group_name with
   | .ok => .ok ()
   | .alreadyExists => .ok ()
   | .err m => .error ⟨"Failed to create log group: " ++ m, 400⟩,
   [CallEffect.createLogGroup log_group_name])

/-- Embedding of `_create_log_stream`: one `create_log_stream` call;
`ResourceAlreadyExistsException` is swallowed. -/
def _create_log_stream (env : Env) (log_group_name log_stream_name : String) :
    Except ValidationError Unit × List CallEffect :=
  (match env.createLogStreamOutcome log_group_name log_stream_name with
   | .ok => .ok ()
   | .alreadyExists => .ok ()
   | .err m => .error ⟨"Failed to create log stream: " ++ m, 400⟩,
   [CallEffect.createLogStream log_group_name log_stream_name])

/-- Embedding of `_put_log_event`: one `put_log_events` call with a single
record whose message is the JSON serialization of `event_data` and whose
timestamp is `timestamp`. -/
def _put_log_event (env : Env) (log_group_name log_stream_name : String)
    (timestamp : Int) (event_data : PyVal) :
    Except ValidationError Unit × List CallEffect :=
  (match env.putLogEventsOutcome log_group_name log_stream_name timestamp
      (env.dumps event_data) with
   | .ok => .ok ()
   | .err m => .error ⟨"Failed to write log events: " ++ m, 400⟩,
   [CallEffect.putLogEvents log_group_name log_stream_name timestamp
     (env.dumps event_data)])

/-- Embedding of `write_to_cloudwatch`: input validation, idempotent log
group creation, one `time.time()*1000` read naming the log stream
`id/timestamp`, idempotent log stream creation, merge of `id` and
`timestamp` into the payload, and one append of the serialized record.  A
non-dict payload makes the `\x7b**data\x7d` merge raise a `TypeError`,
which the function wraps into a `ValidationError`. -/
def write_to_cloudwatch (env : Env) (log_group_name id_value : String)
    (data : PyVal) : Except ValidationError Unit × List CallEffect :=
  match _validate_cloudwatch_inputs log_group_name id_value data with
  | .error e => (.error e, [])
  | .ok _ =>
    match _ensure_log_group_exists env log_group_name with
    | (.error e, fx1) => (.error e, fx1)
    | (.ok _, fx1) =>
      let timestamp := env.nowMs
      let log_stream_name := id_value ++ "/" ++ toString timestamp
      match _create_log_stream env log_group_name log_stream_name with
      | (.error e, fx2) => (.error e, fx1 ++ fx2)
      | (.ok _, fx2) =>
        match data with
        | .dict xs =>
          let event_data := PyVal.dict (mergeDicts
            [("id", .str id_value), ("timestamp", .int timestamp)] xs)
          match _put_log_event env log_group_name log_stream_name timestamp
              event_data with
          | (.error e, fx3) => (.error e, fx1 ++ fx2 ++ fx3)
          | (.ok _, fx3) => (.ok (), fx1 ++ fx2 ++ fx3)
        | _ =>
          (.error ⟨"Failed to write to CloudWatch: TypeError: data must be a mapping",
            400⟩, fx1 ++ fx2)


theorem ensure_log_group_ok (env : Env) (lg : String)
    (h : (env.createLogGroupOutcome lg).isErr = false) :
    _ensure_log_group_exists env lg = (.ok (), [CallEffect.createLogGroup lg]) := by
  unfold _ensure_log_group_exists
  cases hgo : env.createLogGroupOutcome lg with
  | ok => rfl
  | alreadyExists => rfl
  | err m => rw [hgo] at h; simp [AwsOutcome.isErr] at h

theorem create_log_stream_ok (env : Env) (lg stream : String)
    (h : (env.createLogStreamOutcome lg stream).isErr = false) :
    _create_log_stream env lg stream = (.ok (), [CallEffect.createLogStream lg stream]) := by
  unfold _create_log_stream
  cases hso : env.createLogStreamOutcome lg stream with
  | ok => rfl
  | alreadyExists => rfl
  | err m => rw [hso] at h; simp [AwsOutcome.isErr] at h

/-- C3: for every non-empty target, non-empty id, and dict payload, the
write path issues exactly one partition-create call (an `alreadyExists`
outcome counting as success), derives the sub-partition name
`id/nowMs` from the single epoch-millisecond clock read, and issues
exactly one append whose message is the serialization of the payload
merged with the `id` and `timestamp` keys and whose record timestamp is
that same clock value; when the append succeeds the write succeeds. -/
theorem C3_write_to_cloudwatch_spec (env : Env)
    (log_group_name id_value : String) (xs : List (String × PyVal))
    (hlg : log_group_name ≠ "") (hid : id_value ≠ "")
    (hg : (env.createLogGroupOutcome log_group_name).isErr = false)
    (hs : (env.createLogStreamOutcome log_group_name
      (id_value ++ "/" ++ toString env.nowMs)).isErr = false) :
    (write_to_cloudwatch env log_group_name id_value (.dict xs)).2
      = [CallEffect.createLogGroup log_group_name,
         CallEffect.createLogStream log_group_name
           (id_value ++ "/" ++ toString env.nowMs),
         CallEffect.putLogEvents log_group_name
           (id_value ++ "/" ++ toString env.nowMs) env.nowMs
           (env.dumps (.dict (mergeDicts
             [("id", .str id_value), ("timestamp", .int env.nowMs)] xs)))] ∧
    (env.putLogEventsOutcome log_group_name
        (id_value ++ "/" ++ toString env.nowMs) env.nowMs
        (env.dumps (.dict (mergeDicts
          [("id", .str id_value), ("timestamp", .int env.nowMs)] xs))) = .ok →
      (write_to_cloudwatch env log_group_name id_value (.dict xs)).1 = .ok ()) := by
  refine ⟨?_, ?_⟩
  · simp only [write_to_cloudwatch, _validate_cloudwatch_inputs, if_neg hlg, if_neg hid,
      ensure_log_group_ok env log_group_name hg,
      create_log_stream_ok env log_group_name (id_value ++ "/" ++ toString env.nowMs) hs]
    cases hpo : env.putLogEventsOutcome log_group_name
        (id_value ++ "/" ++ toString env.nowMs) env.nowMs
        (env.dumps (.dict (mergeDicts
          [("id", .str id_value), ("timestamp", .int env.nowMs)] xs))) with
    | ok => simp [_put_log_event, hpo]
    | err m => simp [_put_log_event, hpo]
  · intro hput
    simp only [write_to_cloudwatch, _validate_cloudwatch_inputs, if_neg hlg, if_neg hid,
      ensure_log_group_ok env log_group_name hg,
      create_log_stream_ok env log_group_name (id_value ++ "/" ++ toString env.nowMs) hs,
      _put_log_event, hput]

/-- Witness for C3 with a concrete environment, target, id, and payload. -/
theorem C3_write_to_cloudwatch_spec_witness :
    (write_to_cloudwatch envW "lg" "abc" (.dict [("message", .str "x")])).2
      = [CallEffect.createLogGroup "lg",
         CallEffect.createLogStream "lg" ("abc" ++ "/" ++ toString envW.nowMs),
         CallEffect.putLogEvents "lg" ("abc" ++ "/" ++ toString envW.nowMs) envW.nowMs
           (envW.dumps (.dict (mergeDicts
             [("id", .str "abc"), ("timestamp", .int envW.nowMs)]
             [("message", .str "x")])))] ∧
    (envW.putLogEventsOutcome "lg" ("abc" ++ "/" ++ toString envW.nowMs) envW.nowMs
        (envW.dumps (.dict (mergeDicts
          [("id", .str "abc"), ("timestamp", .int envW.nowMs)]
          [("message", .str "x")]))) = .ok →
      (write_to_cloudwatch envW "lg" "abc" (.dict [("message", .str "x")])).1 = .ok ()) :=
  C3_write_to_cloudwatch_spec envW "lg" "abc" [("message", .str "x")]
    (by decide) (by decide) rfl rfl

/-- Path-and-body extraction of `handle_create_event`: gateway events use
`path` and JSON-parse a string `body` (missing body defaults to the empty
dict); resolver events use `info.fieldName` and `arguments`; anything
else is an unsupported event format. -/
def normalize_create (loads : String → Option PyVal)
    (event : List (String × PyVal)) : Except PyErr (PyVal × PyVal) :=
  match dictGet event "path" with
  | Option.some p =>
    match dictGet event "body" with
    | Option.some (.str s) =>
      match loads s with
      | Option.some b => .ok (p, b)
      | Option.none => .error (.vErr ⟨"Invalid JSON in request body", 400⟩)
    | Option.some b => .ok (p, b)
    | Option.none => .ok (p, .dict [])
  | Option.none =>
    match dictGet event "info" with
    | Option.some infoV =>
      match pyContains infoV "fieldName" with
      | .error e => .error e
      | .ok true =>
        match infoV with
        | .dict info =>
          .ok ((dictGet info "fieldName").getD (.str ""),
               (dictGet event "arguments").getD (.dict []))
        | _ => .error (.exn "AttributeError: get")
      | .ok false => .error (.vErr ⟨"Unsupported event format", 400⟩)
    | Option.none => .error (.vErr ⟨"Unsupported event format", 400⟩)

/-- Path-and-query extraction of `handle_read_event`: gateway events use
`path` and `queryStringParameters` (a falsy value defaulting to the empty
dict); resolver events use `info.fieldName` and `arguments`. -/
def normalize_read (event : List (String × PyVal)) : Except PyErr (PyVal × PyVal) :=
  match dictGet event "path" with
  | Option.some p =>
    .ok (p,
      if pyTruthy ((dictGet event "queryStringParameters").getD (.dict []))
      then (dictGet event "queryStringParameters").getD (.dict [])
      else .dict [])
  | Option.none =>
    match dictGet event "info" with
    | Option.some infoV =>
      match pyContains infoV "fieldName" with
      | .error e => .error e
      | .ok true =>
        match infoV with
        | .dict info =>
          .ok ((dictGet info "fieldName").getD (.str ""),
               (dictGet event "arguments").getD (.dict []))
        | _ => .error (.exn "AttributeError: get")
      | .ok false => .error (.vErr ⟨"Unsupported event format", 400⟩)
    | Option.none => .error (.vErr ⟨"Unsupported event format", 400⟩)

/-- Embedding of `handle_create_event`: normalization, id extraction,
body validation, config lookup, CloudWatch write, and the 200 envelope. -/
def handle_create_event (env : Env) (event : List (String × PyVal)) :
    Except PyErr Response × List CallEffect :=
  match normalize_create env.loads event with
  | .error e => (.error e, [])
  | .ok (path, body) =>
    match extract_id_from_path path with
    | .error e => (.error (.vErr e), [])
    | .ok id_value =>
      match validate_create_input body with
      | .error e => (.error (.vErr e), [])
      | .ok _ =>
        match get_log_group_name env with
        | (.error e, fx1) => (.error (.vErr e), fx1)
        | (.ok log_group_name, fx1) =>
          match write_to_cloudwatch env log_group_name id_value body with
          | (.error e, fx2) => (.error (.vErr e), fx1 ++ fx2)
          | (.ok _, fx2) =>
            (.ok ⟨200, env.dumps (.dict
              [("message", .str "Data successfully recorded"),
               ("id", .str id_value), ("success", .bool true)]), ctJson⟩,
             fx1 ++ fx2)

/-- The per-row loop of `query_cloudwatch_logs`: the last `@message`
field's value JSON-parsed when possible (else kept as the raw string),
and the last `@timestamp` field's value. -/
def rowScan (loads : String → Option PyVal) (row : List (String × String)) :
    Option PyVal × Option String :=
  row.foldl
    (fun acc fv =>
      if fv.1 == "@message" then
        (match loads fv.2 with
         | Option.some v => Option.some v
         | Option.none => Option.some (.str fv.2), acc.2)
      else if fv.1 == "@timestamp" then (acc.1, Option.some fv.2)
      else acc)
    (Option.none, Option.none)

/-- Row post-processing of `query_cloudwatch_logs`: a row is kept only
when its scanned message is truthy, and a truthy `@timestamp` is attached
to dict-shaped messages under the `@timestamp` key. -/
def processRow (loads : String → Option PyVal) (row : List (String × String)) :
    Option PyVal :=
  match rowScan loads row with
  | (Option.some m, ts) =>
    if pyTruthy m then
      Option.some
        (match ts, m with
         | Option.some t, .dict xs =>
           if t = "" then .dict xs else .dict (dictSet xs "@timestamp" (.str t))
         | _, _ => m)
    else Option.none
  | (Option.none, _) => Option.none

/-- Embedding of `query_cloudwatch_logs`: epoch-millisecond bounds, an
interpolated filter query, one `start_query` call, polling
`get_query_results` until the query leaves the `Running` state, and row
post-processing.  Failures are re-raised unchanged (never wrapped into a
`ValidationError`). -/
def query_cloudwatch_logs (env : Env) (log_group_name id_value : String)
    (start_time end_time : Int) : Except PyErr (List PyVal) × List CallEffect :=
  match env.startQueryOutcome with
  | .error m =>
    (.error (.exn m),
     [CallEffect.startQuery log_group_name (start_time * 1000) (end_time * 1000)
       ("fields @timestamp, @message | filter @message like \"" ++ id_value
         ++ "\" | sort @timestamp desc")])
  | .ok query_id =>
    match env.queryResultsOutcome with
    | .error m =>
      (.error (.exn m),
       CallEffect.startQuery log_group_name (start_time * 1000) (end_time * 1000)
           ("fields @timestamp, @message | filter @message like \"" ++ id_value
             ++ "\" | sort @timestamp desc")
         :: List.replicate (env.queryRunningPolls + 1)
             (CallEffect.getQueryResults query_id))
    | .ok rows =>
      (.ok (rows.filterMap (processRow env.loads)),
       CallEffect.startQuery log_group_name (start_time * 1000) (end_time * 1000)
           ("fields @timestamp, @message | filter @message like \"" ++ id_value
             ++ "\" | sort @timestamp desc")
         :: List.replicate (env.queryRunningPolls + 1)
             (CallEffect.getQueryResults query_id))

/-- Embedding of `handle_read_event`: normalization, id extraction, time
range validation, config lookup, CloudWatch query, and the 200 envelope
carrying the record count and the kept records. -/
def handle_read_event (env : Env) (event : List (String × PyVal)) :
    Except PyErr Response × List CallEffect :=
  match normalize_read event with
  | .error e => (.error e, [])
  | .ok (path, query_params) =>
    match extract_id_from_path path with
    | .error e => (.error (.vErr e), [])
    | .ok id_value =>
      match validate_read_input env query_params id_value with
      | .error e => (.error e, [])
      | .ok (start_time, end_time) =>
        match get_log_group_name env with
        | (.error e, fx1) => (.error (.vErr e), fx1)
        | (.ok log_group_name, fx1) =>
          match query_cloudwatch_logs env log_group_name id_value
              start_time end_time with
          | (.error e, fx2) => (.error e, fx1 ++ fx2)
          | (.ok results, fx2) =>
            (.ok ⟨200, env.dumps (.dict
              [("id", .str id_value),
               ("startTime", .str (env.isoformat start_time)),
               ("endTime", .str (env.isoformat end_time)),
               ("count", .int results.length),
               ("records", .list results)]), ctJson⟩,
             fx1 ++ fx2)

/-- Method resolution of `lambda_handler`: the `httpMethod` value when
present, else `POST`/`GET` from a resolver event's upper-cased
`parentTypeName` (`Mutation`/`Query`), else the initial empty string. -/
def resolve_method (event : List (String × PyVal)) : Except PyErr PyVal :=
  match dictGet event "httpMethod" with
  | Option.some m => .ok m
  | Option.none =>
    match dictGet event "info" with
    | Option.some infoV =>
      match pyContains infoV "fieldName" with
      | .error e => .error e
      | .ok true =>
        match infoV with
        | .dict info =>
          match dictGet info "parentTypeName" with
          | Option.none => .ok (.str "")
          | Option.some (.str s) =>
            .ok (.str (if s.toUpper = "MUTATION" then "POST"
              else if s.toUpper = "QUERY" then "GET" else ""))
          | Option.some _ => .error (.exn "AttributeError: upper")
        | _ => .error (.exn "AttributeError: get")
      | .ok false => .ok (.str "")
    | Option.none => .ok (.str "")

/-- The try-block of `lambda_handler`: method resolution and dispatch to
the create path, the read path, the 405 branch, or the 400 branch. -/
def dispatch (env : Env) (event : List (String × PyVal)) :
    Except PyErr Response × List CallEffect :=
  match resolve_method event with
  | .error e => (.error e, [])
  | .ok method =>
    if pyEqStr method "POST" || pyEqStr method "PUT" then
      handle_create_event env event
    else if pyEqStr method "GET" then
      handle_read_event env event
    else if pyEqStr method "DELETE" || pyEqStr method "PATCH" then
      (.ok ⟨405, env.dumps (.dict
        [("message",
          .str "Method not allowed. Update and Delete operations are not supported."),
         ("success", .bool false)]), ctJson⟩, [])
    else
      (.ok ⟨400, env.dumps (.dict
        [("message", .str ("Unsupported method: " ++ pyStrOf method)),
         ("success", .bool false)]), ctJson⟩, [])

/-- Embedding of `lambda_handler`: the dispatch result rendered through
the two catch clauses — a `ValidationError` becomes its carried status
code and message, any other exception becomes a generic 500. -/
def lambda_handler (env : Env) (event : List (String × PyVal)) :
    Response × List CallEffect :=
  match dispatch env event with
  | (.ok r, fx) => (r, fx)
  | (.error (.vErr e), fx) =>
    (⟨e.status_code, env.dumps (.dict
      [("message", .str e.message), ("success", .bool false)]), ctJson⟩, fx)
  | (.error (.exn _), fx) =>
    (⟨500, env.dumps (.dict
      [("message", .str "Internal server error"), ("success", .bool false)]),
      ctJson⟩, fx)

/-- C1: for every environment and event, when dispatch raises a
`ValidationError` the handler returns the envelope carrying the error's
status code and a body serializing its message with `success: false`;
when dispatch raises any other exception the handler returns the fixed
500 envelope whose body never mentions the underlying cause. -/
theorem C1_lambda_handler_error_envelopes (env : Env)
    (event : List (String × PyVal)) :
    (∀ e, (dispatch env event).1 = .error (.vErr e) →
      (lambda_handler env event).1
        = ⟨e.status_code, env.dumps (.dict
            [("message", .str e.message), ("success", .bool false)]), ctJson⟩) ∧
    (∀ m, (dispatch env event).1 = .error (.exn m) →
      (lambda_handler env event).1
        = ⟨500, env.dumps (.dict
            [("message", .str "Internal server error"), ("success", .bool false)]),
           ctJson⟩) := by
  refine ⟨?_, ?_⟩
  · intro e he
    unfold lambda_handler
    cases hd : dispatch env event with
    | mk res fx =>
      have hres : res = .error (.vErr e) := by rw [hd] at he; exact he
      subst hres
      rfl
  · intro m hm
    unfold lambda_handler
    cases hd : dispatch env event with
    | mk res fx =>
      have hres : res = .error (.exn m) := by rw [hd] at hm; exact hm
      subst hres
      rfl

/-- Witness for C1: a gateway event with no path yields the 400
validation envelope; a read with a non-string `start` parameter raises a
`TypeError` and yields the generic 500 envelope. -/
theorem C1_lambda_handler_error_envelopes_witness :
    (lambda_handler envW [("httpMethod", PyVal.str "POST")]).1
      = ⟨400, envW.dumps (.dict
          [("message", .str "Unsupported event format"), ("success", .bool false)]),
         ctJson⟩ ∧
    (lambda_handler envW [("httpMethod", PyVal.str "GET"), ("path", PyVal.str "/a/b"),
        ("queryStringParameters", PyVal.dict [("start", PyVal.int 5)])]).1
      = ⟨500, envW.dumps (.dict
          [("message", .str "Internal server error"), ("success", .bool false)]),
         ctJson⟩ :=
  ⟨(C1_lambda_handler_error_envelopes envW
      [("httpMethod", PyVal.str "POST")]).1
      ⟨"Unsupported event format", 400⟩ rfl,
   (C1_lambda_handler_error_envelopes envW
      [("httpMethod", PyVal.str "GET"), ("path", PyVal.str "/a/b"),
       ("queryStringParameters", PyVal.dict [("start", PyVal.int 5)])]).2
      "TypeError: parser requires a string" rfl⟩

/-- C7: every event whose resolved method is `DELETE` or `PATCH` yields
the 405 not-supported envelope with `success: false`, and the effect
trace is empty — no config or storage collaborator is called. -/
theorem C7_dispatcher_delete_patch (env : Env) (event : List (String × PyVal))
    (m : PyVal) (hm : resolve_method event = .ok m)
    (hdel : (pyEqStr m "DELETE" || pyEqStr m "PATCH") = true) :
    lambda_handler env event
      = (⟨405, env.dumps (.dict
          [("message",
            .str "Method not allowed. Update and Delete operations are not supported."),
           ("success", .bool false)]), ctJson⟩, []) := by
  unfold lambda_handler dispatch
  rw [hm]
  cases m with
  | str t =>
    have ht : t = "DELETE" ∨ t = "PATCH" := by
      simp [pyEqStr] at hdel
      exact hdel
    rcases ht with h | h
    · subst h; rfl
    · subst h; rfl
  | none => simp [pyEqStr] at hdel
  | bool b => simp [pyEqStr] at hdel
  | int n => simp [pyEqStr] at hdel
  | list l => simp [pyEqStr] at hdel
  | dict d => simp [pyEqStr] at hdel

/-- Witness for C7 at a concrete DELETE event. -/
theorem C7_dispatcher_delete_patch_witness :
    lambda_handler envW [("httpMethod", PyVal.str "DELETE")]
      = (⟨405, envW.dumps (.dict
          [("message",
            .str "Method not allowed. Update and Delete operations are not supported."),
           ("success", .bool false)]), ctJson⟩, []) :=
  C7_dispatcher_delete_patch envW [("httpMethod", PyVal.str "DELETE")]
    (.str "DELETE") rfl rfl

theorem handle_create_ok_shape (env : Env) (event : List (String × PyVal))
    (r : Response) (h : (handle_create_event env event).1 = .ok r) :
    r.headers = ctJson ∧ ∃ v, r.body = env.dumps v := by
  unfold handle_create_event at h
  repeat' split at h
  all_goals simp at h
  all_goals subst h
  all_goals exact ⟨rfl, ⟨_, rfl⟩⟩

theorem handle_read_ok_shape (env : Env) (event : List (String × PyVal))
    (r : Response) (h : (handle_read_event env event).1 = .ok r) :
    r.headers = ctJson ∧ ∃ v, r.body = env.dumps v := by
  unfold handle_read_event at h
  repeat' split at h
  all_goals simp at h
  all_goals subst h
  all_goals exact ⟨rfl, ⟨_, rfl⟩⟩

theorem dispatch_ok_shape (env : Env) (event : List (String × PyVal))
    (r : Response) (h : (dispatch env event).1 = .ok r) :
    r.headers = ctJson ∧ ∃ v, r.body = env.dumps v := by
  unfold dispatch at h
  split at h
  · simp at h
  · split at h
    · exact handle_create_ok_shape env event r h
    · split at h
      · exact handle_read_ok_shape env event r h
      · split at h
        · obtain rfl : r = _ := by simpa using h.symm
          exact ⟨rfl, ⟨_, rfl⟩⟩
        · obtain rfl : r = _ := by simpa using h.symm
          exact ⟨rfl, ⟨_, rfl⟩⟩

/-- C8: every value `lambda_handler` returns, on every code path, is an
envelope whose headers are exactly the `Content-Type: application/json`
mapping and whose body is the JSON serialization of some embedded value
(with the status code an integer by construction). -/
theorem C8_lambda_handler_envelope_shape (env : Env)
    (event : List (String × PyVal)) :
    (lambda_handler env event).1.headers = ctJson ∧
    ∃ v, (lambda_handler env event).1.body = env.dumps v := by
  unfold lambda_handler
  cases hd : dispatch env event with
  | mk res fx =>
    cases res with
    | ok r => exact dispatch_ok_shape env event r (by rw [hd])
    | error e =>
      cases e with
      | vErr ve => exact ⟨rfl, ⟨_, rfl⟩⟩
      | exn m => exact ⟨rfl, ⟨_, rfl⟩⟩

theorem extract_id_400 (p : PyVal) :
    ∀ e, extract_id_from_path p = .error e → e.status_code = 400 := by
  unfold extract_id_from_path
  repeat' split
  all_goals intro e h
  all_goals simp at h
  all_goals subst h
  all_goals rfl

theorem validate_create_400 (body : PyVal) :
    ∀ e, validate_create_input body = .error e → e.status_code = 400 := by
  unfold validate_create_input
  repeat' split
  all_goals intro e h
  all_goals simp at h
  all_goals subst h
  all_goals rfl

theorem readTimeParam_vErr_400 (env : Env) (qp : PyVal) (key errMsg : String) :
    ∀ e, readTimeParam env qp key errMsg = .error (.vErr e) → e.status_code = 400 := by
  unfold readTimeParam pyContains pySubscript
  repeat' split
  all_goals intro e h
  all_goals try (repeat' split at h)
  all_goals try (simp at h)
  all_goals try subst h
  all_goals try rfl
  all_goals (rename_i heq2; repeat' split at heq2 <;> simp_all)

theorem validate_read_vErr_400 (env : Env) (qp : PyVal) (idv : String) :
    ∀ e, validate_read_input env qp idv = .error (.vErr e) → e.status_code = 400 := by
  intro e h
  unfold validate_read_input at h
  by_cases hid : idv = ""
  · rw [if_pos hid] at h
    have h2 : (⟨"ID is required", 400⟩ : ValidationError) = e := by simpa using h
    exact h2 ▸ rfl
  · rw [if_neg hid] at h
    cases h1 : readTimeParam env qp "start"
        "Invalid start time format. Expected ISO 8601 format." with
    | error pe =>
      simp only [h1] at h
      cases pe with
      | vErr e1 =>
        have h2 : e1 = e := by simpa using h
        exact h2 ▸ readTimeParam_vErr_400 env qp _ _ e1 h1
      | exn m => simp at h
    | ok startOpt =>
      simp only [h1] at h
      cases h2 : readTimeParam env qp "end"
          "Invalid end time format. Expected ISO 8601 format." with
      | error pe =>
        simp only [h2] at h
        cases pe with
        | vErr e1 =>
          have h3 : e1 = e := by simpa using h
          exact h3 ▸ readTimeParam_vErr_400 env qp _ _ e1 h2
        | exn m => simp at h
      | ok endOpt =>
        simp only [h2] at h
        rw [ite_eq_iff] at h
        rcases h with ⟨hc, h⟩ | ⟨hc, h⟩
        · have h3 : (⟨"Start time must be before end time", 400⟩ : ValidationError) = e := by
            simpa using h
          exact h3 ▸ rfl
        · simp at h

theorem get_log_group_400 (env : Env) :
    ∀ e, (get_log_group_name env).1 = .error e → e.status_code = 400 := by
  unfold get_log_group_name
  repeat' split
  all_goals intro e h
  all_goals try (simp at h)
  all_goals try subst h
  all_goals try rfl
  all_goals first
    | (rename_i heq2; repeat' split at heq2 <;> simp_all)
    | (rename_i heq2; subst heq2; rfl)

theorem _validate_cloudwatch_inputs_400 (lg idv : String) (data : PyVal) :
    ∀ e, _validate_cloudwatch_inputs lg idv data = .error e → e.status_code = 400 := by
  unfold _validate_cloudwatch_inputs
  repeat' split
  all_goals intro e h
  all_goals simp at h
  all_goals subst h
  all_goals rfl

theorem _ensure_log_group_400 (env : Env) (lg : String) :
    ∀ e, (_ensure_log_group_exists env lg).1 = .error e → e.status_code = 400 := by
  unfold _ensure_log_group_exists
  repeat' split
  all_goals intro e h
  all_goals simp at h
  all_goals subst h
  all_goals rfl

theorem _create_log_stream_400 (env : Env) (lg stream : String) :
    ∀ e, (_create_log_stream env lg stream).1 = .error e → e.status_code = 400 := by
  unfold _create_log_stream
  repeat' split
  all_goals intro e h
  all_goals simp at h
  all_goals subst h
  all_goals rfl

theorem _put_log_event_400 (env : Env) (lg stream : String) (ts : Int) (ed : PyVal) :
    ∀ e, (_put_log_event env lg stream ts ed).1 = .error e → e.status_code = 400 := by
  unfold _put_log_event
  repeat' split
  all_goals intro e h
  all_goals simp at h
  all_goals subst h
  all_goals rfl

theorem write_400 (env : Env) (lg idv : String) (data : PyVal) :
    ∀ e, (write_to_cloudwatch env lg idv data).1 = .error e → e.status_code = 400 := by
  intro e h
  unfold write_to_cloudwatch at h
  cases hv : _validate_cloudwatch_inputs lg idv data with
  | error e1 =>
    simp only [hv] at h
    have h2 : e1 = e := by simpa using h
    exact h2 ▸ _validate_cloudwatch_inputs_400 lg idv data e1 hv
  | ok u =>
    simp only [hv] at h
    cases hg : _ensure_log_group_exists env lg with
    | mk r1 fx1 =>
      cases r1 with
      | error e1 =>
        simp only [hg] at h
        have h2 : e1 = e := by simpa using h
        exact h2 ▸ _ensure_log_group_400 env lg e1 (by rw [hg])
      | ok u1 =>
        simp only [hg] at h
        cases hs : _create_log_stream env lg (idv ++ "/" ++ toString env.nowMs) with
        | mk r2 fx2 =>
          cases r2 with
          | error e2 =>
            simp only [hs] at h
            have h2 : e2 = e := by simpa using h
            exact h2 ▸ _create_log_stream_400 env lg
              (idv ++ "/" ++ toString env.nowMs) e2 (by rw [hs])
          | ok u2 =>
            simp only [hs] at h
            cases data with
            | dict xs =>
              cases hp : _put_log_event env lg (idv ++ "/" ++ toString env.nowMs)
                  env.nowMs (.dict (mergeDicts
                    [("id", .str idv), ("timestamp", .int env.nowMs)] xs)) with
              | mk r3 fx3 =>
                cases r3 with
                | error e3 =>
                  simp only [hp] at h
                  have h2 : e3 = e := by simpa using h
                  exact h2 ▸ _put_log_event_400 env lg
                    (idv ++ "/" ++ toString env.nowMs) env.nowMs
                    (.dict (mergeDicts
                      [("id", .str idv), ("timestamp", .int env.nowMs)] xs))
                    e3 (by rw [hp])
                | ok u3 => simp only [hp] at h; simp at h
            | none =>
              have h2 : (⟨"Failed to write to CloudWatch: TypeError: data must be a mapping",
                  400⟩ : ValidationError) = e := by simpa using h
              exact h2 ▸ rfl
            | bool b =>
              have h2 : (⟨"Failed to write to CloudWatch: TypeError: data must be a mapping",
                  400⟩ : ValidationError) = e := by simpa using h
              exact h2 ▸ rfl
            | int n =>
              have h2 : (⟨"Failed to write to CloudWatch: TypeError: data must be a mapping",
                  400⟩ : ValidationError) = e := by simpa using h
              exact h2 ▸ rfl
            | str s =>
              have h2 : (⟨"Failed to write to CloudWatch: TypeError: data must be a mapping",
                  400⟩ : ValidationError) = e := by simpa using h
              exact h2 ▸ rfl
            | list l =>
              have h2 : (⟨"Failed to write to CloudWatch: TypeError: data must be a mapping",
                  400⟩ : ValidationError) = e := by simpa using h
              exact h2 ▸ rfl

theorem normalize_create_vErr_400 (loads : String → Option PyVal)
    (event : List (String × PyVal)) :
    ∀ e, normalize_create loads event = .error (.vErr e) → e.status_code = 400 := by
  unfold normalize_create pyContains
  repeat' split
  all_goals intro e h
  all_goals try (simp at h)
  all_goals try subst h
  all_goals try rfl
  all_goals (rename_i heq2; repeat' split at heq2 <;> simp_all)

theorem normalize_read_vErr_400 (event : List (String × PyVal)) :
    ∀ e, normalize_read event = .error (.vErr e) → e.status_code = 400 := by
  unfold normalize_read pyContains
  repeat' split
  all_goals intro e h
  all_goals try (simp at h)
  all_goals try subst h
  all_goals try rfl
  all_goals (rename_i heq2; repeat' split at heq2 <;> simp_all)

theorem resolve_method_no_vErr (event : List (String × PyVal)) :
    ∀ e, resolve_method event = .error (.vErr e) → False := by
  unfold resolve_method pyContains
  repeat' split
  all_goals intro e h
  all_goals try (simp at h)
  all_goals (rename_i heq2; repeat' split at heq2 <;> simp_all)

theorem query_no_vErr (env : Env) (lg idv : String) (st en : Int) :
    ∀ e, (query_cloudwatch_logs env lg idv st en).1 = .error (.vErr e) → False := by
  unfold query_cloudwatch_logs
  repeat' split
  all_goals intro e h
  all_goals simp at h

theorem handle_create_vErr_400 (env : Env) (event : List (String × PyVal)) :
    ∀ e, (handle_create_event env event).1 = .error (.vErr e) →
      e.status_code = 400 := by
  intro e h
  unfold handle_create_event at h
  cases hn : normalize_create env.loads event with
  | error e1 =>
    simp only [hn] at h
    cases e1 with
    | vErr ev =>
      have h2 : ev = e := by simpa using h
      exact h2 ▸ normalize_create_vErr_400 env.loads event ev hn
    | exn m => simp at h
  | ok pb =>
    obtain ⟨path, body⟩ := pb
    simp only [hn] at h
    cases hx : extract_id_from_path path with
    | error e2 =>
      simp only [hx] at h
      have h2 : e2 = e := by simpa using h
      exact h2 ▸ extract_id_400 path e2 hx
    | ok idv =>
      simp only [hx] at h
      cases hvc : validate_create_input body with
      | error e3 =>
        simp only [hvc] at h
        have h2 : e3 = e := by simpa using h
        exact h2 ▸ validate_create_400 body e3 hvc
      | ok u =>
        simp only [hvc] at h
        cases hg : get_log_group_name env with
        | mk r1 fx1 =>
          cases r1 with
          | error e4 =>
            simp only [hg] at h
            have h2 : e4 = e := by simpa using h
            exact h2 ▸ get_log_group_400 env e4 (by rw [hg])
          | ok lg =>
            simp only [hg] at h
            cases hw : write_to_cloudwatch env lg idv body with
            | mk r2 fx2 =>
              cases r2 with
              | error e5 =>
                simp only [hw] at h
                have h2 : e5 = e := by simpa using h
                exact h2 ▸ write_400 env lg idv body e5 (by rw [hw])
              | ok u2 => simp only [hw] at h; simp at h

theorem handle_read_vErr_400 (env : Env) (event : List (String × PyVal)) :
    ∀ e, (handle_read_event env event).1 = .error (.vErr e) →
      e.status_code = 400 := by
  intro e h
  unfold handle_read_event at h
  cases hn : normalize_read event with
  | error e1 =>
    simp only [hn] at h
    cases e1 with
    | vErr ev =>
      have h2 : ev = e := by simpa using h
      exact h2 ▸ normalize_read_vErr_400 event ev hn
    | exn m => simp at h
  | ok pb =>
    obtain ⟨path, qp⟩ := pb
    simp only [hn] at h
    cases hx : extract_id_from_path path with
    | error e2 =>
      simp only [hx] at h
      have h2 : e2 = e := by simpa using h
      exact h2 ▸ extract_id_400 path e2 hx
    | ok idv =>
      simp only [hx] at h
      cases hvr : validate_read_input env qp idv with
      | error pe =>
        simp only [hvr] at h
        cases pe with
        | vErr e3 =>
          have h2 : e3 = e := by simpa using h
          exact h2 ▸ validate_read_vErr_400 env qp idv e3 hvr
        | exn m => simp at h
      | ok ste =>
        obtain ⟨st, en⟩ := ste
        simp only [hvr] at h
        cases hg : get_log_group_name env with
        | mk r1 fx1 =>
          cases r1 with
          | error e4 =>
            simp only [hg] at h
            have h2 : e4 = e := by simpa using h
            exact h2 ▸ get_log_group_400 env e4 (by rw [hg])
          | ok lg =>
            simp only [hg] at h
            cases hq : query_cloudwatch_logs env lg idv st en with
            | mk r2 fx2 =>
              cases r2 with
              | error pe =>
                simp only [hq] at h
                cases pe with
                | vErr e5 =>
                  exact (query_no_vErr env lg idv st en e5 (by rw [hq])).elim
                | exn m => simp at h
              | ok results => simp only [hq] at h; simp at h

theorem dispatch_vErr_400 (env : Env) (event : List (String × PyVal)) :
    ∀ e, (dispatch env event).1 = .error (.vErr e) → e.status_code = 400 := by
  intro e h
  unfold dispatch at h
  cases hr : resolve_method event with
  | error pe =>
    simp only [hr] at h
    cases pe with
    | vErr ev => exact (resolve_method_no_vErr event ev hr).elim
    | exn m => simp at h
  | ok m =>
    simp only [hr] at h
    split at h
    · exact handle_create_vErr_400 env event e h
    · split at h
      · exact handle_read_vErr_400 env event e h
      · split at h
        · simp at h
        · simp at h

/-- C10: every `ValidationError` the processing raises carries the default
status code 400, and so every validation-failure response rendered by
`lambda_handler` has `statusCode` exactly 400. -/
theorem C10_validation_failures_are_400 (env : Env)
    (event : List (String × PyVal)) :
    ∀ e, (dispatch env event).1 = .error (.vErr e) →
      e.status_code = 400 ∧ (lambda_handler env event).1.statusCode = 400 := by
  intro e h
  have h400 := dispatch_vErr_400 env event e h
  refine ⟨h400, ?_⟩
  unfold lambda_handler
  cases hd : dispatch env event with
  | mk res fx =>
    have hres : res = .error (.vErr e) := by rw [hd] at h; exact h
    subst hres
    exact h400

/-- Witness for C10 at a concrete validation failure. -/
theorem C10_validation_failures_are_400_witness :
    (⟨"Unsupported event format", (400 : Int)⟩ : ValidationError).status_code = 400 ∧
    (lambda_handler envW [("httpMethod", PyVal.str "PUT")]).1.statusCode = 400 :=
  C10_validation_failures_are_400 envW [("httpMethod", PyVal.str "PUT")]
    ⟨"Unsupported event format", 400⟩ rfl

theorem query_ok_results (env : Env) (rows : List (List (String × String)))
    (hr : env.queryResultsOutcome = .ok rows) (lg idv : String) (st en : Int)
    (res : List PyVal)
    (h : (query_cloudwatch_logs env lg idv st en).1 = .ok res) :
    res = rows.filterMap (processRow env.loads) := by
  unfold query_cloudwatch_logs at h
  cases hsq : env.startQueryOutcome with
  | error m => simp only [hsq] at h; simp at h
  | ok qid =>
    simp only [hsq, hr] at h
    simpa using h.symm

/-- C9: a query result row is kept only when its scanned message is
truthy — rows with no `@message` field, and rows whose message parses or
defaults to a falsy value, are dropped; the successful query returns
exactly the kept rows in order, every successful read response reports
`count` equal to the number of kept rows, and the number of kept rows can
be strictly smaller than the number of rows the search matched. -/
theorem C9_read_drops_falsy_rows (env : Env) (qid : String)
    (rows : List (List (String × String)))
    (hq : env.startQueryOutcome = .ok qid)
    (hr : env.queryResultsOutcome = .ok rows) :
    (∀ lg idv st en, (query_cloudwatch_logs env lg idv st en).1
        = .ok (rows.filterMap (processRow env.loads))) ∧
    (∀ row, (rowScan env.loads row).1 = Option.none →
        processRow env.loads row = Option.none) ∧
    (∀ row m, (rowScan env.loads row).1 = Option.some m → pyTruthy m = false →
        processRow env.loads row = Option.none) ∧
    (rows.filterMap (processRow env.loads)).length ≤ rows.length ∧
    (∀ event r, (handle_read_event env event).1 = .ok r →
      ∃ idv st en, r.body = env.dumps (.dict
        [("id", .str idv),
         ("startTime", .str (env.isoformat st)),
         ("endTime", .str (env.isoformat en)),
         ("count", .int (rows.filterMap (processRow env.loads)).length),
         ("records", .list (rows.filterMap (processRow env.loads)))])) ∧
    (∃ (loads2 : String → Option PyVal) (rows2 : List (List (String × String))),
      (rows2.filterMap (processRow loads2)).length < rows2.length) := by
  refine ⟨?_, ?_, ?_, ?_, ?_, ?_⟩
  · intro lg idv st en
    unfold query_cloudwatch_logs
    simp only [hq, hr]
  · intro row h0
    unfold processRow
    cases hsc : rowScan env.loads row with
    | mk a b =>
      have ha : a = Option.none := by rw [hsc] at h0; exact h0
      subst ha
      rfl
  · intro row m h0 hm
    unfold processRow
    cases hsc : rowScan env.loads row with
    | mk a b =>
      have ha : a = Option.some m := by rw [hsc] at h0; exact h0
      subst ha
      simp [hm]
  · exact List.length_filterMap_le _ _
  · intro event r h
    unfold handle_read_event at h
    cases hn : normalize_read event with
    | error e1 => simp only [hn] at h; simp at h
    | ok pb =>
      obtain ⟨path, qp⟩ := pb
      simp only [hn] at h
      cases hx : extract_id_from_path path with
      | error e2 => simp only [hx] at h; simp at h
      | ok idv =>
        simp only [hx] at h
        cases hvr : validate_read_input env qp idv with
        | error pe => simp only [hvr] at h; simp at h
        | ok ste =>
          obtain ⟨st, en⟩ := ste
          simp only [hvr] at h
          cases hg : get_log_group_name env with
          | mk r1 fx1 =>
            cases r1 with
            | error e4 => simp only [hg] at h; simp at h
            | ok lg =>
              simp only [hg] at h
              cases hqr : query_cloudwatch_logs env lg idv st en with
              | mk r2 fx2 =>
                cases r2 with
                | error pe => simp only [hqr] at h; simp at h
                | ok results =>
                  simp only [hqr] at h
                  have hres : results = rows.filterMap (processRow env.loads) :=
                    query_ok_results env rows hr lg idv st en results (by rw [hqr])
                  have hr2 : r = ⟨200, env.dumps (.dict
                    [("id", .str idv),
                     ("startTime", .str (env.isoformat st)),
                     ("endTime", .str (env.isoformat en)),
                     ("count", .int results.length),
                     ("records", .list results)]), ctJson⟩ := by
                    simpa using h.symm
                  subst hr2
                  subst hres
                  exact ⟨idv, st, en, rfl⟩
  · refine ⟨fun s => if s = "y" then Option.some (.int 0)
      else Option.some (.dict [("k", .str "v")]),
      [[("@message", "x")], [("@message", "y")]], ?_⟩
    decide

/-- Witness environment for C9: two matched rows, the second parsing to a
falsy JSON value. -/
def envQ : Env :=
  { envW with
    loads := fun s => if s = "y" then Option.some (.int 0)
      else Option.some (.dict [("k", .str "v")]),
    queryResultsOutcome := .ok [[("@message", "x")], [("@message", "y")]] }

/-- Witness for C9 at a concrete environment: the query keeps exactly the
truthy-message rows of the two matched rows. -/
theorem C9_read_drops_falsy_rows_witness :
    (query_cloudwatch_logs envQ "lg" "abc" 0 10).1
      = .ok ([[("@message", "x")], [("@message", "y")]].filterMap
          (processRow envQ.loads)) ∧
    ([[("@message", "x")], [("@message", "y")]].filterMap
        (processRow envQ.loads)).length
      ≤ ([[("@message", "x")], [("@message", "y")]] :
          List (List (String × String))).length :=
  ⟨(C9_read_drops_falsy_rows envQ "qid" [[("@message", "x")], [("@message", "y")]]
      rfl rfl).1 "lg" "abc" 0 10,
   (C9_read_drops_falsy_rows envQ "qid" [[("@message", "x")], [("@message", "y")]]
      rfl rfl).2.2.2.1⟩
